import Mathlib

/-!
Shallow embedding of `gopher_configuration/configuration.py`.

The module exposes a family of configuration-group classes (Buttons, Frames,
Actions, Services, Sounds, Topics, Namespaces, LEDPatterns), each holding a
raw sub-mapping as its attribute dictionary and offering a `validate` method,
and a `Configuration` class using the Borg pattern: a class-level shared raw
mapping (`__shared_state`), lazily populated from the rosparam server, from
which every `Configuration()` call derives its group attributes and
pass-through attributes.

Modelling choices:
- A raw YAML/rosparam value is `Value`: an atom (leaf setting) or a table
  (one level of mapping from setting name to leaf value).  The claims under
  study only inspect top-level keys, group-level keys and leaf values, so
  one level of nesting suffices.
- Python dictionaries are association lists with the first binding of a key
  authoritative; iteration order is the list order.
- Mutation of the class-level shared state is explicit state passing: the
  shared state goes in and comes out of each operation.
- `rospy.logerr` calls and `error_logger` (the injected `error_reporter`
  callback) calls are recorded as an event trace, so that which channel
  reported a failure is visible in the result.
- In the source, a core value that is present but not a mapping would crash
  on the `self.__dict__ = ...` assignment; no claim touches that case and
  `Value.asDict` projects an atom to the empty dictionary instead.
-/

namespace GopherConfiguration

/-- A leaf dictionary: a group sub-mapping from setting name to leaf value. -/
abbrev Dict := List (String × String)

/-- A raw configuration value: a leaf atom or a one-level sub-mapping. -/
inductive Value where
  | atom (s : String)
  | table (d : Dict)
deriving DecidableEq

/-- The raw shared configuration: Python dict from top-level key to value,
mirroring `Configuration.__shared_state`. -/
abbrev RawConfiguration := List (String × Value)

/-- Python `key in d.keys()` on an association list. -/
def hasKey {α : Type} (d : List (String × α)) (k : String) : Bool :=
  d.any (fun p => p.1 == k)

/-- Python `d[key]` on an association list, `none` standing for `KeyError`. -/
def lookup {α : Type} (d : List (String × α)) (k : String) : Option α :=
  (d.find? (fun p => p.1 == k)).map Prod.snd

/-- The dictionary stored into a group's `__dict__`; an atom projects to the
empty dictionary (in the source that case would crash, see module comment). -/
def Value.asDict : Value → Dict
  | .atom _ => []
  | .table d => d

/-- `Buttons.__init__` stores the raw sub-mapping as the attribute dict. -/
structure Buttons where
  dict : Dict
deriving DecidableEq

/-- `Frames.__init__` stores the raw sub-mapping as the attribute dict. -/
structure Frames where
  dict : Dict
deriving DecidableEq

/-- `Actions.__init__` stores the raw sub-mapping as the attribute dict. -/
structure Actions where
  dict : Dict
deriving DecidableEq

/-- `Services.__init__` stores the raw sub-mapping as the attribute dict. -/
structure Services where
  dict : Dict
deriving DecidableEq

/-- `Sounds.__init__` stores the raw sub-mapping as the attribute dict. -/
structure Sounds where
  dict : Dict
deriving DecidableEq

/-- `Topics.__init__` stores the raw sub-mapping as the attribute dict. -/
structure Topics where
  dict : Dict
deriving DecidableEq

/-- `Namespaces.__init__` stores the raw sub-mapping as the attribute dict. -/
structure Namespaces where
  dict : Dict
deriving DecidableEq

/-- Modelled from the spec: the `gopher_std_msgs.Notification` pattern
constants are opaque externally-defined values (the message package is not
under src/); they are represented as distinct abstract tags. -/
inductive NotificationPattern where
  | FLASH_BLUE
  | FLASH_YELLOW
  | FLASH_PURPLE
  | AROUND_RIGHT_BLUE
  | SOLID_RED
deriving DecidableEq

/-- `LEDPatterns.__init__`: fixed, statically defined field values. -/
structure LEDPatterns where
  humans_give_me_input : NotificationPattern := NotificationPattern.FLASH_BLUE
  humans_be_careful : NotificationPattern := NotificationPattern.FLASH_YELLOW
  humans_i_need_help : NotificationPattern := NotificationPattern.FLASH_PURPLE
  holding : NotificationPattern := NotificationPattern.AROUND_RIGHT_BLUE
  error : NotificationPattern := NotificationPattern.SOLID_RED
deriving DecidableEq

/-- The `LEDPatterns()` instance built by `Configuration.__init__`. -/
def LEDPatterns.init : LEDPatterns := {}

/-- The shared validation loop `for key in [...]: if key not in
self.__dict__.keys(): return (False, "no definition for <word> '%s'" % key)`,
with `word` the group-specific noun in the message. -/
def checkKeys (word : String) (required : List String) (d : Dict) :
    Bool × Option String :=
  match required with
  | [] => (true, none)
  | k :: rest =>
    if hasKey d k then checkKeys word rest d
    else (false, some ("no definition for " ++ word ++ " '" ++ k ++ "'"))

/-- `Buttons.validate`. -/
def Buttons.validate (g : Buttons) : Bool × Option String :=
  checkKeys ("button") [("go"), ("stop")] g.dict

/-- `Frames.validate`. -/
def Frames.validate (g : Frames) : Bool × Option String :=
  checkKeys ("frame") [("map")] g.dict

/-- `Actions.validate`. -/
def Actions.validate (g : Actions) : Bool × Option String :=
  checkKeys ("action") [("teleport")] g.dict

/-- `Services.validate`. -/
def Services.validate (g : Services) : Bool × Option String :=
  checkKeys ("service") [("clear_costmaps")] g.dict

/-- `Sounds.validate`. -/
def Sounds.validate (g : Sounds) : Bool × Option String :=
  checkKeys ("sound") [("honk")] g.dict

/-- `Topics.validate`. -/
def Topics.validate (g : Topics) : Bool × Option String :=
  checkKeys ("topic") [("display_notification"), ("initial_pose"), ("switch_map")] g.dict

/-- `Namespaces.validate`. -/
def Namespaces.validate (g : Namespaces) : Bool × Option String :=
  checkKeys ("namespace") [("semantics")] g.dict

/-- `LEDPatterns.validate` returns `(True, None)` unconditionally. -/
def LEDPatterns.validate (_ : LEDPatterns) : Bool × Option String :=
  (true, none)

/-! ### The Configuration registry -/

/-- One reported event: `rospy.logerr` is the logging collaborator,
`report` is a call of the injected `error_logger` callback. -/
inductive Event where
  | logerr (msg : String)
  | report (msg : String)
deriving DecidableEq

/-- The external rosparam server: `rospy.get_param` on a namespace either
returns a raw mapping or raises `KeyError` (`none`). -/
abbrev Server := String → Option RawConfiguration

/-- The default lookup namespace of `load_from_rosparam_server`. -/
def defaultNamespace : String := "/gopher/configuration"

/-- The `core` list in `Configuration.__init__`, in source order. -/
def coreNames : List String :=
  [("actions"), ("buttons"), ("namespaces"), ("frames"),
   ("topics"), ("services"), ("sounds"), ("led_patterns")]

/-- Python `"%s" % core` of a list of strings. -/
def pyListFormat (names : List String) : String :=
  "[" ++ String.intercalate (", ") (names.map (fun s => "'" ++ s ++ "'")) ++ "]"

/-- The message `error_logger` receives when a core group key is absent. -/
def coreMissingMessage : String :=
  "at least one of the core parameter groups missing " ++ pyListFormat coreNames

/-- Python `"%s" % error_message` applied to a validation message. -/
def formatOpt : Option String → String
  | some s => s
  | none => "None"

/-- `Configuration.load_from_rosparam_server(namespace)`: on success the
shared state is replaced wholesale; on `KeyError` two `rospy.logerr` lines
are emitted and the shared state is left untouched. -/
def load_from_rosparam_server (server : Server) (ns : String)
    (shared : RawConfiguration) : RawConfiguration × List Event :=
  match server ns with
  | some cfg => (cfg, [])
  | none =>
    (shared,
     [Event.logerr ("Gopher Configuration : could not find configuration on the rosparam server"),
      Event.logerr ("Gopher Configuration : is it looking in the right place? [" ++ ns ++ "]")])

/-- The `if not Configuration.__shared_state:` guard of `__init__`: an empty
shared dict triggers the implicit fetch from the default namespace. -/
def preload (server : Server) (shared : RawConfiguration) :
    RawConfiguration × List Event :=
  if shared.isEmpty then load_from_rosparam_server server defaultNamespace shared
  else (shared, [])

/-- The constructed `Configuration` handle: each core group attribute is
`none` while unset, and pass-through attributes are kept as a mapping. -/
structure Handle where
  actions : Option Actions := none
  buttons : Option Buttons := none
  namespaces : Option Namespaces := none
  frames : Option Frames := none
  sounds : Option Sounds := none
  services : Option Services := none
  topics : Option Topics := none
  led_patterns : Option LEDPatterns := none
  passthrough : RawConfiguration := []
deriving DecidableEq

/-- The validation loop of `__init__`: `validate()` over the groups in the
order of the `core` list, one `error_logger` call per failing group. -/
def validationEvents (a : Actions) (b : Buttons) (n : Namespaces) (f : Frames)
    (t : Topics) (sv : Services) (sd : Sounds) (l : LEDPatterns) : List Event :=
  ([a.validate, b.validate, n.validate, f.validate,
    t.validate, sv.validate, sd.validate, l.validate].filterMap
    (fun r => if r.1 then none else some (Event.report (formatOpt r.2))))

/-- The body of `Configuration.__init__` after the implicit-fetch guard:
sequential assignment of the seven fetched groups (in source order
actions, buttons, namespaces, frames, sounds, services, topics, then
`LEDPatterns()`); the first missing key raises `KeyError`, which reports
`coreMissingMessage` once and returns early with the handle as assigned so
far; otherwise the validation loop runs and the non-core keys are copied
through. -/
def constructCore (shared : RawConfiguration) : Handle × List Event :=
  match lookup shared ("actions") with
  | none => ({}, [Event.report coreMissingMessage])
  | some va =>
  match lookup shared ("buttons") with
  | none => ({ actions := some ⟨va.asDict⟩ }, [Event.report coreMissingMessage])
  | some vb =>
  match lookup shared ("namespaces") with
  | none =>
    ({ actions := some ⟨va.asDict⟩, buttons := some ⟨vb.asDict⟩ },
     [Event.report coreMissingMessage])
  | some vn =>
  match lookup shared ("frames") with
  | none =>
    ({ actions := some ⟨va.asDict⟩, buttons := some ⟨vb.asDict⟩,
       namespaces := some ⟨vn.asDict⟩ },
     [Event.report coreMissingMessage])
  | some vf =>
  match lookup shared ("sounds") with
  | none =>
    ({ actions := some ⟨va.asDict⟩, buttons := some ⟨vb.asDict⟩,
       namespaces := some ⟨vn.asDict⟩, frames := some ⟨vf.asDict⟩ },
     [Event.report coreMissingMessage])
  | some vsd =>
  match lookup shared ("services") with
  | none =>
    ({ actions := some ⟨va.asDict⟩, buttons := some ⟨vb.asDict⟩,
       namespaces := some ⟨vn.asDict⟩, frames := some ⟨vf.asDict⟩,
       sounds := some ⟨vsd.asDict⟩ },
     [Event.report coreMissingMessage])
  | some vsv =>
  match lookup shared ("topics") with
  | none =>
    ({ actions := some ⟨va.asDict⟩, buttons := some ⟨vb.asDict⟩,
       namespaces := some ⟨vn.asDict⟩, frames := some ⟨vf.asDict⟩,
       sounds := some ⟨vsd.asDict⟩, services := some ⟨vsv.asDict⟩ },
     [Event.report coreMissingMessage])
  | some vt =>
    ({ actions := some ⟨va.asDict⟩, buttons := some ⟨vb.asDict⟩,
       namespaces := some ⟨vn.asDict⟩, frames := some ⟨vf.asDict⟩,
       sounds := some ⟨vsd.asDict⟩, services := some ⟨vsv.asDict⟩,
       topics := some ⟨vt.asDict⟩, led_patterns := some LEDPatterns.init,
       passthrough := shared.filter (fun p => !(coreNames.contains p.1)) },
     validationEvents ⟨va.asDict⟩ ⟨vb.asDict⟩ ⟨vn.asDict⟩ ⟨vf.asDict⟩
       ⟨vt.asDict⟩ ⟨vsv.asDict⟩ ⟨vsd.asDict⟩ LEDPatterns.init)

/-- Result of one `Configuration(error_logger)` call: the handle, the shared
state after the call (the implicit fetch may have populated it) and the
trace of logging and reporter events. -/
structure ConstructResult where
  handle : Handle
  shared : RawConfiguration
  events : List Event
deriving DecidableEq

/-- `Configuration.__init__`: implicit fetch when the shared state is empty,
then group construction, validation and pass-through copying. -/
def construct (server : Server) (shared : RawConfiguration) : ConstructResult :=
  let p := preload server shared
  let c := constructCore p.1
  ⟨c.1, p.1, p.2 ++ c.2⟩

/-! ### The closed family of externally-fed group variants

The seven classes that take a sub-mapping share the same validation loop
shape; `GroupKind` enumerates them so that per-variant facts can be stated
once, dispatching to each class's own `validate`. -/

/-- The seven externally-fed group variants. -/
inductive GroupKind where
  | buttons
  | frames
  | actions
  | services
  | sounds
  | topics
  | namespaces
deriving DecidableEq

/-- The required-key contract of each variant, in the order its validation
loop lists the keys. -/
def GroupKind.requiredKeys : GroupKind → List String
  | .buttons => [("go"), ("stop")]
  | .frames => [("map")]
  | .actions => [("teleport")]
  | .services => [("clear_costmaps")]
  | .sounds => [("honk")]
  | .topics => [("display_notification"), ("initial_pose"), ("switch_map")]
  | .namespaces => [("semantics")]

/-- The noun each variant's validation message uses. -/
def GroupKind.word : GroupKind → String
  | .buttons => ("button")
  | .frames => ("frame")
  | .actions => ("action")
  | .services => ("service")
  | .sounds => ("sound")
  | .topics => ("topic")
  | .namespaces => ("namespace")

/-- Dispatch to the variant's own `validate` on a group built from `d`. -/
def GroupKind.validate (g : GroupKind) (d : Dict) : Bool × Option String :=
  match g with
  | .buttons => Buttons.validate ⟨d⟩
  | .frames => Frames.validate ⟨d⟩
  | .actions => Actions.validate ⟨d⟩
  | .services => Services.validate ⟨d⟩
  | .sounds => Sounds.validate ⟨d⟩
  | .topics => Topics.validate ⟨d⟩
  | .namespaces => Namespaces.validate ⟨d⟩

/-! ### Sample data for the concrete instances -/

/-- A server with nothing stored, standing in when no fetch happens. -/
def noServer : Server := fun _ => none

/-- A valid sample configuration: all seven fetched core entries with their
required keys, plus one extra top-level key. -/
def sampleCfg : RawConfiguration :=
  [(("actions"), .table [(("teleport"), ("teleport_home"))]),
   (("buttons"), .table [(("go"), ("/gopher/buttons/go")), (("stop"), ("/gopher/buttons/stop"))]),
   (("namespaces"), .table [(("semantics"), ("/gopher/semantics"))]),
   (("frames"), .table [(("map"), ("map"))]),
   (("sounds"), .table [(("honk"), ("/gopher/commands/honk"))]),
   (("services"), .table [(("clear_costmaps"), ("/move_base/clear_costmaps"))]),
   (("topics"), .table [(("display_notification"), ("/gopher/display")),
                        (("initial_pose"), ("/initial_pose")),
                        (("switch_map"), ("/switch_map"))]),
   (("custom_stuff"), .atom ("value"))]

/-- `sampleCfg` with the "sounds" entry and the extra key removed. -/
def sampleCfgMissingSounds : RawConfiguration :=
  [(("actions"), .table [(("teleport"), ("teleport_home"))]),
   (("buttons"), .table [(("go"), ("/gopher/buttons/go")), (("stop"), ("/gopher/buttons/stop"))]),
   (("namespaces"), .table [(("semantics"), ("/gopher/semantics"))]),
   (("frames"), .table [(("map"), ("map"))]),
   (("services"), .table [(("clear_costmaps"), ("/move_base/clear_costmaps"))]),
   (("topics"), .table [(("display_notification"), ("/gopher/display")),
                        (("initial_pose"), ("/initial_pose")),
                        (("switch_map"), ("/switch_map"))])]

/-- A second sample configuration living at another store namespace. -/
def repointCfg : RawConfiguration :=
  [(("actions"), .table [(("teleport"), ("teleport_elsewhere"))])]

/-- A server resolving every namespace to `repointCfg`. -/
def repointServer : Server := fun _ => some repointCfg

/-- A server resolving every namespace to an empty mapping. -/
def emptyServer : Server := fun _ => some []

/-! ### Helper lemmas -/

theorem GroupKind.validate_eq_checkKeys (g : GroupKind) (d : Dict) :
    g.validate d = checkKeys g.word g.requiredKeys d := by
  cases g <;> rfl

theorem checkKeys_of_first_missing (word : String) (d : Dict)
    (pre post : List String) (k : String)
    (hpre : ∀ k' ∈ pre, hasKey d k' = true) (hk : hasKey d k = false) :
    checkKeys word (pre ++ k :: post) d =
      (false, some ("no definition for " ++ word ++ " '" ++ k ++ "'")) := by
  induction pre with
  | nil => simp [checkKeys, hk]
  | cons p rest ih =>
    have hp : hasKey d p = true := hpre p (by simp)
    simpa [checkKeys, hp] using ih (fun k' hk' => hpre k' (by simp [hk']))

theorem checkKeys_of_all_present (word : String) (d : Dict)
    (required : List String) (h : ∀ k ∈ required, hasKey d k = true) :
    checkKeys word required d = (true, none) := by
  induction required with
  | nil => rfl
  | cons p rest ih =>
    have hp : hasKey d p = true := h p (by simp)
    simpa [checkKeys, hp] using ih (fun k hk => h k (by simp [hk]))

theorem lookup_cons {α : Type} (a : String) (v : α)
    (rest : List (String × α)) (k : String) :
    lookup ((a, v) :: rest) k =
      if (a == k) = true then some v else lookup rest k := by
  by_cases h : (a == k) = true
  · simp [lookup, List.find?, h]
  · simp only [Bool.not_eq_true] at h
    simp [lookup, List.find?, h]

theorem lookup_filter {α : Type} (l : List (String × α)) (k : String)
    (q : String × α → Bool) (hq : ∀ v, q (k, v) = true) :
    lookup (l.filter q) k = lookup l k := by
  induction l with
  | nil => rfl
  | cons p rest ih =>
    rcases p with ⟨a, v⟩
    rw [List.filter_cons]
    by_cases hqp : q (a, v) = true
    · rw [if_pos hqp, lookup_cons, lookup_cons]
      by_cases hak : (a == k) = true
      · simp [hak]
      · simp [hak, ih]
    · have hne : (a == k) = false := by
        cases hab : (a == k) with
        | false => rfl
        | true =>
          have hakeq : a = k := by simpa using hab
          subst hakeq
          exact absurd (hq v) hqp
      rw [if_neg hqp, ih, lookup_cons, if_neg (by simp [hne])]

theorem lookup_isEmpty_false {α : Type} (l : List (String × α)) (k : String)
    (v : α) (h : lookup l k = some v) : l.isEmpty = false := by
  cases l with
  | nil => simp [lookup] at h
  | cons p rest => rfl

theorem hasKey_of_mem_keys {α : Type} (d : List (String × α)) (k : String)
    (h : k ∈ d.map Prod.fst) : hasKey d k = true := by
  simp only [List.mem_map] at h
  obtain ⟨p, hp, hpk⟩ := h
  simp only [hasKey, List.any_eq_true]
  exact ⟨p, hp, by simp [hpk]⟩

/-! ### Claim theorems -/

/-- Claim C4: for every externally-fed group variant and a sub-mapping from
which a required key of the variant's contract is omitted while every key
listed before it in the contract is present, `validate` returns false with
a message naming that key — so with several keys missing, the message names
the first missing key in the contract's listed order. -/
theorem claim4_validate_names_first_missing_key (g : GroupKind) (d : Dict)
    (pre post : List String) (k : String)
    (hreq : g.requiredKeys = pre ++ k :: post)
    (hpre : ∀ k' ∈ pre, hasKey d k' = true)
    (hk : hasKey d k = false) :
    g.validate d =
      (false, some ("no definition for " ++ g.word ++ " '" ++ k ++ "'")) := by
  rw [GroupKind.validate_eq_checkKeys, hreq]
  exact checkKeys_of_first_missing g.word d pre post k hpre hk

/-- Witness for C4: a Buttons sub-mapping with "go" present and "stop"
missing fails validation naming "stop". -/
theorem claim4_witness :
    GroupKind.validate GroupKind.buttons [(("go"), ("x"))] =
      (false, some ("no definition for button 'stop'")) :=
  claim4_validate_names_first_missing_key GroupKind.buttons [(("go"), ("x"))]
    [("go")] [] ("stop") rfl (by decide) (by decide)

/-- Claim C5: every externally-fed group variant built from a sub-mapping
whose key set is exactly the variant's required keys (and no others)
validates as `(True, None)`. -/
theorem claim5_validate_succeeds_on_exact_required_keys (g : GroupKind)
    (d : Dict) (hkeys : ∀ k, k ∈ d.map Prod.fst ↔ k ∈ g.requiredKeys) :
    g.validate d = (true, none) := by
  rw [GroupKind.validate_eq_checkKeys]
  exact checkKeys_of_all_present g.word d g.requiredKeys
    (fun k hk => hasKey_of_mem_keys d k ((hkeys k).mpr hk))

/-- Witness for C5: a Topics sub-mapping with exactly the three required
keys validates successfully. -/
theorem claim5_witness :
    GroupKind.validate GroupKind.topics
      [(("display_notification"), ("a")), (("initial_pose"), ("b")),
       (("switch_map"), ("c"))] = (true, none) :=
  claim5_validate_succeeds_on_exact_required_keys GroupKind.topics
    [(("display_notification"), ("a")), (("initial_pose"), ("b")),
     (("switch_map"), ("c"))] (fun _ => Iff.rfl)

/-- Claim C8: `LEDPatterns.validate` returns `(True, None)` for every
instance, independent of any raw configuration content. -/
theorem claim8_led_patterns_always_valid (p : LEDPatterns) :
    p.validate = (true, none) := rfl

/-- Claim C2: a `load_from_rosparam_server` call whose namespace does not
resolve leaves the shared raw configuration exactly unchanged, emits its
two failure lines through the logging collaborator (`logerr`, never a
`report` of the error_reporter callback), and returns normally. -/
theorem claim2_failed_fetch_leaves_shared_unchanged (server : Server)
    (ns : String) (shared : RawConfiguration) (h : server ns = none) :
    load_from_rosparam_server server ns shared =
      (shared,
       [Event.logerr ("Gopher Configuration : could not find configuration on the rosparam server"),
        Event.logerr ("Gopher Configuration : is it looking in the right place? [" ++ ns ++ "]")]) := by
  simp [load_from_rosparam_server, h]

/-- Witness for C2: fetching a missing namespace over a populated shared
configuration. -/
theorem claim2_witness :
    load_from_rosparam_server noServer ("/missing/configuration") sampleCfg =
      (sampleCfg,
       [Event.logerr ("Gopher Configuration : could not find configuration on the rosparam server"),
        Event.logerr ("Gopher Configuration : is it looking in the right place? [" ++ "/missing/configuration" ++ "]")]) :=
  claim2_failed_fetch_leaves_shared_unchanged noServer
    ("/missing/configuration") sampleCfg rfl

/-- Counterexample to claim C1 as stated: `sampleCfgMissingSounds` is a
shared raw configuration missing the "sounds" core entry (the claim's own
example), yet the constructed handle has its `actions` attribute set — the
claim requires that none of the eight core group attributes end up set.
The sequential assignments of `__init__` run until the first missing key
raises `KeyError`, so the groups assigned before the failure survive on the
handle. -/
theorem claim1_counterexample :
    (construct noServer sampleCfgMissingSounds).handle.actions ≠ none := by
  decide

/-- Claim C1 (amended): with "sounds" absent but the entries looked up
before it (actions, buttons, namespaces, frames) present, construction
invokes the error_reporter exactly once with the message listing all eight
core group names and returns early: the handle keeps the four groups
assigned before the failure, while sounds, services, topics and
led_patterns stay unset and no pass-through attribute is copied. -/
theorem claim1_missing_sounds_partial_abort
    (server : Server) (cfg : RawConfiguration) (va vb vn vf : Value)
    (ha : lookup cfg ("actions") = some va)
    (hb : lookup cfg ("buttons") = some vb)
    (hn : lookup cfg ("namespaces") = some vn)
    (hf : lookup cfg ("frames") = some vf)
    (hs : lookup cfg ("sounds") = none) :
    construct server cfg =
      ⟨{ actions := some ⟨va.asDict⟩, buttons := some ⟨vb.asDict⟩,
         namespaces := some ⟨vn.asDict⟩, frames := some ⟨vf.asDict⟩ },
       cfg, [Event.report coreMissingMessage]⟩ := by
  have hne : cfg.isEmpty = false := lookup_isEmpty_false cfg ("actions") va ha
  simp [construct, preload, hne, constructCore, ha, hb, hn, hf, hs]

/-- Witness for the amended C1 at the concrete configuration missing
"sounds". -/
theorem claim1_witness :
    construct noServer sampleCfgMissingSounds =
      ⟨{ actions := some ⟨[(("teleport"), ("teleport_home"))]⟩,
         buttons := some ⟨[(("go"), ("/gopher/buttons/go")),
                           (("stop"), ("/gopher/buttons/stop"))]⟩,
         namespaces := some ⟨[(("semantics"), ("/gopher/semantics"))]⟩,
         frames := some ⟨[(("map"), ("map"))]⟩ },
       sampleCfgMissingSounds, [Event.report coreMissingMessage]⟩ :=
  claim1_missing_sounds_partial_abort noServer sampleCfgMissingSounds
    _ _ _ _ rfl rfl rfl rfl rfl

/-- Claim C3: with all fetched core entries present, construction completes
with every core group attribute set and the non-core keys copied through,
and the event trace is exactly the validation loop's reports — one
error_reporter call per group whose `validate` fails, with no abort. -/
theorem claim3_full_core_constructs_with_validation_reports
    (server : Server) (cfg : RawConfiguration)
    (va vb vn vf vsd vsv vt : Value)
    (ha : lookup cfg ("actions") = some va)
    (hb : lookup cfg ("buttons") = some vb)
    (hn : lookup cfg ("namespaces") = some vn)
    (hf : lookup cfg ("frames") = some vf)
    (hsd : lookup cfg ("sounds") = some vsd)
    (hsv : lookup cfg ("services") = some vsv)
    (ht : lookup cfg ("topics") = some vt) :
    construct server cfg =
      ⟨{ actions := some ⟨va.asDict⟩, buttons := some ⟨vb.asDict⟩,
         namespaces := some ⟨vn.asDict⟩, frames := some ⟨vf.asDict⟩,
         sounds := some ⟨vsd.asDict⟩, services := some ⟨vsv.asDict⟩,
         topics := some ⟨vt.asDict⟩, led_patterns := some LEDPatterns.init,
         passthrough := cfg.filter (fun p => !(coreNames.contains p.1)) },
       cfg,
       validationEvents ⟨va.asDict⟩ ⟨vb.asDict⟩ ⟨vn.asDict⟩ ⟨vf.asDict⟩
         ⟨vt.asDict⟩ ⟨vsv.asDict⟩ ⟨vsd.asDict⟩ LEDPatterns.init⟩ := by
  have hne : cfg.isEmpty = false := lookup_isEmpty_false cfg ("actions") va ha
  simp [construct, preload, hne, constructCore, ha, hb, hn, hf, hsd, hsv, ht]

/-- Witness for C3 at the fully valid sample configuration. -/
theorem claim3_witness :
    construct noServer sampleCfg =
      ⟨{ actions := some ⟨[(("teleport"), ("teleport_home"))]⟩,
         buttons := some ⟨[(("go"), ("/gopher/buttons/go")),
                           (("stop"), ("/gopher/buttons/stop"))]⟩,
         namespaces := some ⟨[(("semantics"), ("/gopher/semantics"))]⟩,
         frames := some ⟨[(("map"), ("map"))]⟩,
         sounds := some ⟨[(("honk"), ("/gopher/commands/honk"))]⟩,
         services := some ⟨[(("clear_costmaps"), ("/move_base/clear_costmaps"))]⟩,
         topics := some ⟨[(("display_notification"), ("/gopher/display")),
                          (("initial_pose"), ("/initial_pose")),
                          (("switch_map"), ("/switch_map"))]⟩,
         led_patterns := some LEDPatterns.init,
         passthrough := sampleCfg.filter (fun p => !(coreNames.contains p.1)) },
       sampleCfg,
       validationEvents ⟨[(("teleport"), ("teleport_home"))]⟩
         ⟨[(("go"), ("/gopher/buttons/go")), (("stop"), ("/gopher/buttons/stop"))]⟩
         ⟨[(("semantics"), ("/gopher/semantics"))]⟩
         ⟨[(("map"), ("map"))]⟩
         ⟨[(("display_notification"), ("/gopher/display")),
           (("initial_pose"), ("/initial_pose")),
           (("switch_map"), ("/switch_map"))]⟩
         ⟨[(("clear_costmaps"), ("/move_base/clear_costmaps"))]⟩
         ⟨[(("honk"), ("/gopher/commands/honk"))]⟩
         LEDPatterns.init⟩ :=
  claim3_full_core_constructs_with_validation_reports noServer sampleCfg
    _ _ _ _ _ _ _ rfl rfl rfl rfl rfl rfl rfl

/-- Claim C6: with a fully valid configuration holding an extra top-level
key "custom_stuff", the handle exposes that key among its pass-through
attributes with its value unchanged, and the event trace is exactly the
core groups' validation reports — the extra key takes no part in core-group
construction or validation. -/
theorem claim6_extra_key_passes_through
    (server : Server) (cfg : RawConfiguration)
    (va vb vn vf vsd vsv vt v : Value)
    (ha : lookup cfg ("actions") = some va)
    (hb : lookup cfg ("buttons") = some vb)
    (hn : lookup cfg ("namespaces") = some vn)
    (hf : lookup cfg ("frames") = some vf)
    (hsd : lookup cfg ("sounds") = some vsd)
    (hsv : lookup cfg ("services") = some vsv)
    (ht : lookup cfg ("topics") = some vt)
    (hx : lookup cfg ("custom_stuff") = some v) :
    lookup (construct server cfg).handle.passthrough ("custom_stuff") = some v ∧
    (construct server cfg).events =
      validationEvents ⟨va.asDict⟩ ⟨vb.asDict⟩ ⟨vn.asDict⟩ ⟨vf.asDict⟩
        ⟨vt.asDict⟩ ⟨vsv.asDict⟩ ⟨vsd.asDict⟩ LEDPatterns.init := by
  have hne : cfg.isEmpty = false := lookup_isEmpty_false cfg ("actions") va ha
  have hcon : construct server cfg =
      ⟨{ actions := some ⟨va.asDict⟩, buttons := some ⟨vb.asDict⟩,
         namespaces := some ⟨vn.asDict⟩, frames := some ⟨vf.asDict⟩,
         sounds := some ⟨vsd.asDict⟩, services := some ⟨vsv.asDict⟩,
         topics := some ⟨vt.asDict⟩, led_patterns := some LEDPatterns.init,
         passthrough := cfg.filter (fun p => !(coreNames.contains p.1)) },
       cfg,
       validationEvents ⟨va.asDict⟩ ⟨vb.asDict⟩ ⟨vn.asDict⟩ ⟨vf.asDict⟩
         ⟨vt.asDict⟩ ⟨vsv.asDict⟩ ⟨vsd.asDict⟩ LEDPatterns.init⟩ := by
    simp [construct, preload, hne, constructCore, ha, hb, hn, hf, hsd, hsv, ht]
  rw [hcon]
  refine ⟨?_, rfl⟩
  show lookup (cfg.filter (fun p => !(coreNames.contains p.1))) ("custom_stuff") = some v
  rw [lookup_filter cfg ("custom_stuff") (fun p => !(coreNames.contains p.1))
    (fun _ => rfl)]
  exact hx

/-- Witness for C6 at the sample configuration with its extra key. -/
theorem claim6_witness :
    lookup (construct noServer sampleCfg).handle.passthrough ("custom_stuff") =
      some (Value.atom ("value")) ∧
    (construct noServer sampleCfg).events =
      validationEvents ⟨[(("teleport"), ("teleport_home"))]⟩
        ⟨[(("go"), ("/gopher/buttons/go")), (("stop"), ("/gopher/buttons/stop"))]⟩
        ⟨[(("semantics"), ("/gopher/semantics"))]⟩
        ⟨[(("map"), ("map"))]⟩
        ⟨[(("display_notification"), ("/gopher/display")),
          (("initial_pose"), ("/initial_pose")),
          (("switch_map"), ("/switch_map"))]⟩
        ⟨[(("clear_costmaps"), ("/move_base/clear_costmaps"))]⟩
        ⟨[(("honk"), ("/gopher/commands/honk"))]⟩
        LEDPatterns.init :=
  claim6_extra_key_passes_through noServer sampleCfg
    _ _ _ _ _ _ _ _ rfl rfl rfl rfl rfl rfl rfl rfl

/-- Claim C7: repointing the registry to a resolvable namespace replaces
the shared raw configuration, so a handle constructed afterwards equals one
constructed directly from the new configuration; the handle constructed
before the repoint is derived from the original shared configuration alone
(state is threaded explicitly, so the earlier handle is a value the later
call cannot change — the wholesale replacement never edits the mapping the
earlier handle's groups came from). -/
theorem claim7_repoint_only_affects_future_handles
    (server : Server) (shared cfg2 : RawConfiguration) (ns : String)
    (hns : server ns = some cfg2) (hsh : shared.isEmpty = false) :
    (load_from_rosparam_server server ns (construct server shared).shared).1 = cfg2 ∧
    construct server
        (load_from_rosparam_server server ns (construct server shared).shared).1 =
      construct server cfg2 ∧
    (construct server shared).handle = (constructCore shared).1 := by
  have h1 : (load_from_rosparam_server server ns
      (construct server shared).shared).1 = cfg2 := by
    simp [load_from_rosparam_server, hns]
  refine ⟨h1, by rw [h1], ?_⟩
  simp [construct, preload, hsh]

/-- Witness for C7: constructing from the sample configuration, repointing
to a server resolving to `repointCfg`, and constructing again. -/
theorem claim7_witness :
    (load_from_rosparam_server repointServer ("/foo/configuration")
        (construct repointServer sampleCfg).shared).1 = repointCfg ∧
    construct repointServer
        (load_from_rosparam_server repointServer ("/foo/configuration")
          (construct repointServer sampleCfg).shared).1 =
      construct repointServer repointCfg ∧
    (construct repointServer sampleCfg).handle = (constructCore sampleCfg).1 :=
  claim7_repoint_only_affects_future_handles repointServer sampleCfg
    repointCfg ("/foo/configuration") rfl rfl

/-- Claim C9: constructing twice from a populated shared configuration with
no intervening mutation yields equal handles — the first construction
leaves the shared state exactly as it found it, and the second runs on the
same input, so construction keeps no hidden incremental state. -/
theorem claim9_repeated_construction_is_stable
    (server : Server) (shared : RawConfiguration)
    (h : shared.isEmpty = false) :
    (construct server (construct server shared).shared).handle =
      (construct server shared).handle ∧
    (construct server shared).shared = shared := by
  have h2 : (construct server shared).shared = shared := by
    simp [construct, preload, h]
  exact ⟨by rw [h2], h2⟩

/-- Witness for C9 at the sample configuration. -/
theorem claim9_witness :
    (construct noServer (construct noServer sampleCfg).shared).handle =
      (construct noServer sampleCfg).handle ∧
    (construct noServer sampleCfg).shared = sampleCfg :=
  claim9_repeated_construction_is_stable noServer sampleCfg rfl

/-- Claim C10: the populated test is emptiness of the shared mapping.
Every construction starting from the empty shared mapping performs the
implicit fetch from the default namespace (first conjunct, an unfolding of
`construct` through the `preload` guard into `load_from_rosparam_server`);
and a shared mapping left empty by a successful fetch of an empty namespace
leads to exactly the same construction as a never-populated one, retrying
the fetch (second conjunct). -/
theorem claim10_empty_shared_retries_fetch
    (server : Server) (ns2 : String) (shared0 : RawConfiguration)
    (h : server ns2 = some []) :
    construct server [] =
      ⟨(constructCore (load_from_rosparam_server server defaultNamespace []).1).1,
       (load_from_rosparam_server server defaultNamespace []).1,
       (load_from_rosparam_server server defaultNamespace []).2 ++
         (constructCore (load_from_rosparam_server server defaultNamespace []).1).2⟩ ∧
    construct server (load_from_rosparam_server server ns2 shared0).1 =
      construct server [] := by
  constructor
  · rfl
  · have h1 : (load_from_rosparam_server server ns2 shared0).1 = [] := by
      simp [load_from_rosparam_server, h]
    rw [h1]

/-- Witness for C10: a server whose every namespace resolves to the empty
mapping, with a previously populated shared configuration. -/
theorem claim10_witness :
    construct emptyServer [] =
      ⟨(constructCore (load_from_rosparam_server emptyServer defaultNamespace []).1).1,
       (load_from_rosparam_server emptyServer defaultNamespace []).1,
       (load_from_rosparam_server emptyServer defaultNamespace []).2 ++
         (constructCore (load_from_rosparam_server emptyServer defaultNamespace []).1).2⟩ ∧
    construct emptyServer
        (load_from_rosparam_server emptyServer ("/empty/configuration") sampleCfg).1 =
      construct emptyServer [] :=
  claim10_empty_shared_retries_fetch emptyServer ("/empty/configuration")
    sampleCfg rfl

end GopherConfiguration
